import Mathlib

/-!
Shallow embedding of the "two-mirrors" optics puzzle and its challenge state
machine: the geometry kernel (`src/unnamed/part_000`), the App physics
simulation, optical metrics and challenge logic (`src/App.tsx`), and the
control-panel angle stepper (`src/components/ControlPanel.tsx`).

JavaScript floating-point numbers are modelled as real numbers;
`Math.atan2 y x` is modelled as the complex argument of `x + y*I` (both have
range `(-π, π]` and send `(0,0)` to `0`), and `Math.round` as `⌊x + 1/2⌋`.
-/

namespace TwoMirrors

noncomputable section

open scoped Classical

/-- A 2D point or vector `{x, y}` (`src/types`). -/
@[ext] structure Pt where
  x : ℝ
  y : ℝ

/-- Degrees to radians (`degToRad`, part_000 line 3). -/
def degToRad (deg : ℝ) : ℝ := deg * Real.pi / 180

/-- Radians to degrees (`radToDeg`, part_000 line 4). -/
def radToDeg (rad : ℝ) : ℝ := rad * 180 / Real.pi

/-- JS `Math.atan2 y x`, embedded as the argument of the complex number
`x + y*I`. -/
def atan2 (y x : ℝ) : ℝ := Complex.arg ⟨x, y⟩

/-- JS `Math.round` (round half toward positive infinity). -/
def jround (v : ℝ) : ℤ := ⌊v + 1 / 2⌋

/-- `normalize` (part_000 lines 6-9); returns `{0,0}` for a zero vector. -/
def normalize (v : Pt) : Pt :=
  let len := Real.sqrt (v.x * v.x + v.y * v.y)
  if len = 0 then ⟨0, 0⟩ else ⟨v.x / len, v.y / len⟩

/-- `reflectVector` (part_000 lines 70-76): specular reflection
`v - 2 (v·n) n`. -/
def reflectVector (v n : Pt) : Pt :=
  let dot := v.x * n.x + v.y * n.y
  ⟨v.x - 2 * dot * n.x, v.y - 2 * dot * n.y⟩

/-- Result record of `intersectRaySegment`. -/
structure RayHit where
  point : Pt
  t : ℝ
  normal : Pt

/-- `intersectRaySegment` (part_000 lines 25-68): intersection of the ray
`origin + t * dir` with the segment from `p1` to `p2`.  Returns `none` when
the determinant is below `1e-6` (parallel guard), when the ray parameter is
not above `0.001` (self-intersection guard), or when the segment parameter
leaves `[0,1]`.  The returned normal is the unit perpendicular of the
segment, sign-flipped so that it points against the ray direction. -/
def intersectRaySegment (rayOrigin rayDir p1 p2 : Pt) : Option RayHit :=
  let v1 := rayOrigin.x - p1.x
  let v2 := rayOrigin.y - p1.y
  let v3 := p2.x - p1.x
  let v4 := p2.y - p1.y
  let v5 := rayDir.x
  let v6 := rayDir.y
  let det := v5 * v4 - v6 * v3
  if |det| < 1e-6 then none
  else
    let t1 := (v3 * v2 - v4 * v1) / det
    let t2 := (v5 * v2 - v6 * v1) / det
    if 0.001 < t1 ∧ 0 ≤ t2 ∧ t2 ≤ 1 then
      let pt : Pt := ⟨rayOrigin.x + rayDir.x * t1, rayOrigin.y + rayDir.y * t1⟩
      let len := Real.sqrt (-v4 * -v4 + v3 * v3)
      let nx := -v4 / len
      let ny := v3 / len
      let nrm : Pt := if 0 < nx * rayDir.x + ny * rayDir.y then ⟨-nx, -ny⟩ else ⟨nx, ny⟩
      some ⟨pt, t1, nrm⟩
    else none

/-- A mirror segment (`src/types`); both app mirrors share `start = (0,0)`. -/
structure Mirror where
  start : Pt
  endPt : Pt
  angle : ℝ
  id : String

/-- The closest-intersection record tracked by the `calculateRayPath` loop. -/
structure LoopHit where
  point : Pt
  t : ℝ
  normal : Pt
  mirrorId : String

/-- One step of the closest-hit scan of `calculateRayPath` (part_000 lines
106-112): a later mirror replaces the best hit only for a strictly smaller
ray parameter. -/
def updateClosest (o d : Pt) (acc : Option LoopHit) (m : Mirror) : Option LoopHit :=
  match intersectRaySegment o d m.start m.endPt with
  | none => acc
  | some hit =>
    match acc with
    | none => some ⟨hit.point, hit.t, hit.normal, m.id⟩
    | some best => if hit.t < best.t then some ⟨hit.point, hit.t, hit.normal, m.id⟩ else acc

/-- The closest hit over the mirror list, in input order (part_000 lines
103-112, starting from `minT = ∞`). -/
def closestHit (o d : Pt) (mirrors : List Mirror) : Option LoopHit :=
  mirrors.foldl (updateClosest o d) none

/-- A direction arrow recorded along the traced path (part_000 line 85). -/
structure Arrow where
  pos : Pt
  angle : ℝ

/-- The bounce loop of `calculateRayPath` (part_000 lines 102-140), by fuel:
each found hit appends the bounce point and an arrow and recurses with the
reflected direction; when no mirror is hit a far escape point is appended and
the loop stops. -/
def traceAux (mirrors : List Mirror) : Pt → Pt → ℕ → List Pt × List Arrow
  | _, _, 0 => ([], [])
  | o, d, n + 1 =>
    match closestHit o d mirrors with
    | some hit =>
      let d' := reflectVector d hit.normal
      let ang := radToDeg (atan2 d'.y d'.x)
      let rest := traceAux mirrors hit.point d' n
      (hit.point :: rest.1,
        (⟨⟨hit.point.x + d'.x * 40, hit.point.y + d'.y * 40⟩, ang⟩ : Arrow) :: rest.2)
    | none => ([⟨o.x + d.x * 2000, o.y + d.y * 2000⟩], [])

/-- Result of `calculateRayPath`. -/
structure RayPath where
  path : List Pt
  arrows : List Arrow

/-- `calculateRayPath` (part_000 lines 78-143): starts from `startPoint` in
the unit direction of `startAngleDeg`, records the start point and an initial
arrow, then runs the bounce loop for `maxBounces` rounds (the app always uses
the default `20`). -/
def calculateRayPath (startPoint : Pt) (startAngleDeg : ℝ) (mirrors : List Mirror)
    (maxBounces : ℕ) : RayPath :=
  let d : Pt := ⟨Real.cos (degToRad startAngleDeg), Real.sin (degToRad startAngleDeg)⟩
  let r := traceAux mirrors startPoint d maxBounces
  { path := startPoint :: r.1
    arrows := (⟨⟨startPoint.x + d.x * 30, startPoint.y + d.y * 30⟩, startAngleDeg⟩ : Arrow) :: r.2 }

/-- The two app mirrors (App.tsx lines 930-939): mirror 1 along `+x`, mirror 2
at the mirror angle, both hinged at the origin with length `50000`. -/
def mirrorsAt (mirrorAngle : ℝ) : List Mirror :=
  [⟨⟨0, 0⟩, ⟨50000, 0⟩, 0, "m1"⟩,
   ⟨⟨0, 0⟩, ⟨50000 * Real.cos (degToRad mirrorAngle), 50000 * Real.sin (degToRad mirrorAngle)⟩,
    mirrorAngle, "m2"⟩]

/-- The memoized simulation output (App.tsx lines 927-961). -/
structure SimResult where
  path : List Pt
  reflectionCount : ℤ
  rayDirVector : Pt
  rayAngle : ℝ

/-- The app physics simulation (App.tsx lines 927-961, and lines 1702-1735
with `sourceDist = 30`, `handleRadius = 100`): source placed at `sourceDist`
from the fixed incidence point `(0.6 * handleRadius, 0)` at the incident
angle, aimed back at the incidence point; `reflectionCount = max 0
(path.length - 2)`. -/
def simulate (mirrorAngle incidentAngle sourceDist handleRadius : ℝ) : SimResult :=
  let mirrors := mirrorsAt mirrorAngle
  let fixedIncidentDist := handleRadius * 0.6
  let incidentPoint : Pt := ⟨fixedIncidentDist, 0⟩
  let sourcePos : Pt :=
    ⟨incidentPoint.x + sourceDist * Real.cos (degToRad incidentAngle),
      incidentPoint.y + sourceDist * Real.sin (degToRad incidentAngle)⟩
  let rayDirVector : Pt := ⟨incidentPoint.x - sourcePos.x, incidentPoint.y - sourcePos.y⟩
  let rayAngle := atan2 rayDirVector.y rayDirVector.x * 180 / Real.pi
  let r := calculateRayPath sourcePos rayAngle mirrors 20
  ⟨r.path, max 0 ((r.path.length : ℤ) - 2), rayDirVector, rayAngle⟩

/-- Last two points of a list, in order `(second-to-last, last)`. -/
def lastTwo : List Pt → Option (Pt × Pt)
  | [] => none
  | [_] => none
  | [a, b] => some (a, b)
  | _ :: b :: c :: rest => lastTwo (b :: c :: rest)

/-- Challenge-1 progress latches (App.tsx lines 863-866). -/
structure C1Progress where
  methodA : Bool
  methodB : Bool

/-- The challenge progression state (App.tsx lines 857-870). -/
structure GameState where
  started : Bool
  challenge : ℤ
  tutorialStep : ℤ
  jewels : ℤ
  points : ℤ
  c1Progress : C1Progress
  c4StartAngle : Option ℝ
  c5StartAngle : Option ℝ
  c5MirrorAngle : Option ℝ

/-- The initial game state (App.tsx lines 908-915). -/
def initialGameState : GameState :=
  ⟨false, 1, 0, 0, 0, ⟨false, false⟩, none, none, none⟩

/-- The full app state relevant to the core: the committed slider values and
the reactive game state (App.tsx lines 901-919). -/
structure AppState where
  mirrorAngle : ℝ
  incidentAngle : ℝ
  sourceDist : ℝ
  handleRadius : ℝ
  gameState : GameState
  wizardText : String
  quizTriggered : Bool

/-- The memoized `simulation` value of the app (App.tsx lines 927-961):
`none` before the game is started. -/
def appSimulation (s : AppState) : Option SimResult :=
  if s.gameState.started = true then
    some (simulate s.mirrorAngle s.incidentAngle s.sourceDist s.handleRadius)
  else none

/-- Wizard message shown when challenge 2 starts (App.tsx line 890). -/
def c2StartMsg : String :=
  "Excellent work! Your next challenge: Bend the light to have exactly TWO reflections."

/-- Hint shown after the first challenge-1 discovery (App.tsx line 1005). -/
def c1HintMsg : String :=
  "Brilliant! You found one way. Now, find the other path to a single reflection. Hint: Have you tried moving both the Mirror and the Source?"

/-- Wizard message shown when challenge 3 starts (App.tsx line 891). -/
def c3StartMsg : String :=
  "You are a master! Your next challenge: Create a Parallel-Reflector. Adjust the mirrors so the final ray is PARALLEL to the incident ray (i.e. deviation = 180 deg) after exactly 2 reflections."

/-- Wizard message shown when challenge 4 starts (App.tsx line 892). -/
def c4StartMsg : String :=
  "Remarkable! You found the 90 deg corner. Your next challenge: KEEP the mirror at 90 deg and CHANGE the light source angle. Observe what happens to the deviation."

/-- Wizard message shown when challenge 5 starts (App.tsx line 894). -/
def c5StartMsg : String :=
  "Interesting... the deviation stayed constant at 180 deg. Your next challenge: Check if this rule holds for OTHER angles. Set the mirror to roughly 110 deg. Then move the light to check constancy."

/-- Completion message (App.tsx line 896). -/
def completeMsg : String :=
  "Magnificent! You have discovered the General Law: For 2 reflections, Total Deviation depends ONLY on the Mirror Angle. You are a true Optic Master!"

/-- Intro message (App.tsx line 887). -/
def introMsg : String :=
  "Welcome, seeker of light! I am the Arcane Optician. Prove your mastery over the twin mirrors to earn the Royal Jewels."

/-- Challenge-1 start message (App.tsx line 888). -/
def c1StartMsg : String :=
  "Your first challenge: Tame the light to have exactly ONE reflection. There are TWO distinct ways to do this. Find them both!"

/-- The challenge-1 arm of the interaction-end evaluation (App.tsx lines
971-1008): with exactly one reflection, latches the discovery flags (method A
for incident angle above `90`, method B otherwise), awards `10` points per
new discovery, and advances to challenge `2` once both flags are set. -/
def interactionC1 (s : AppState) (sim : SimResult) : AppState :=
  if sim.reflectionCount = 1 then
    let p := s.gameState.c1Progress
    let condA := 90 < s.incidentAngle ∧ p.methodA = false
    let condB := s.incidentAngle ≤ 90 ∧ p.methodB = false
    let newProgress : C1Progress :=
      ⟨if condA then true else p.methodA, if condB then true else p.methodB⟩
    let pts := s.gameState.points + (if condA then 10 else 0) + (if condB then 10 else 0)
    if condA ∨ condB then
      if newProgress.methodA = true ∧ newProgress.methodB = true then
        { s with
          gameState :=
            { s.gameState with challenge := 2, points := pts, c1Progress := newProgress }
          wizardText := c2StartMsg }
      else
        { s with
          gameState := { s.gameState with points := pts, c1Progress := newProgress }
          wizardText := c1HintMsg }
    else s
  else s

/-- The challenge-2 arm (App.tsx lines 1009-1018). -/
def interactionC2 (s : AppState) (sim : SimResult) : AppState :=
  if sim.reflectionCount = 2 then
    { s with
      gameState := { s.gameState with challenge := 3, points := s.gameState.points + 10 }
      wizardText := c3StartMsg }
  else s

/-- The challenge-3 arm (App.tsx lines 1019-1046): requires two reflections,
a normalized initial/final direction dot product below `-0.99`, and a mirror
angle rounding to `90`. -/
def interactionC3 (s : AppState) (sim : SimResult) : AppState :=
  if sim.reflectionCount = 2 then
    match lastTwo sim.path with
    | none => s
    | some (prevPt, lastPt) =>
      let lastDx := lastPt.x - prevPt.x
      let lastDy := lastPt.y - prevPt.y
      let lenInit := Real.sqrt (sim.rayDirVector.x ^ 2 + sim.rayDirVector.y ^ 2)
      let nxInit := sim.rayDirVector.x / lenInit
      let nyInit := sim.rayDirVector.y / lenInit
      let nxFinal := lastDx / Real.sqrt (lastDx ^ 2 + lastDy ^ 2)
      let nyFinal := lastDy / Real.sqrt (lastDx ^ 2 + lastDy ^ 2)
      let dot := nxInit * nxFinal + nyInit * nyFinal
      if dot < -0.99 ∧ jround s.mirrorAngle = 90 then
        { s with
          gameState :=
            { s.gameState with
              challenge := 4
              c4StartAngle := some s.incidentAngle
              points := s.gameState.points + 10 }
          wizardText := c4StartMsg
          quizTriggered := false }
      else s
  else s

/-- The challenge-4 arm (App.tsx lines 1047-1058): triggers quiz 1 when the
mirror stays at `90` and the incident angle moved more than `10` degrees
from its snapshot. -/
def interactionC4 (s : AppState) : AppState :=
  if jround s.mirrorAngle = 90 then
    let startAngle := s.gameState.c4StartAngle.getD s.incidentAngle
    let diff := |s.incidentAngle - startAngle|
    if 10 < diff ∧ s.quizTriggered = false then { s with quizTriggered := true } else s
  else s

/-- The challenge-5 arm (App.tsx lines 1059-1081): within `5` degrees of the
target mirror angle `110`, re-snapshots the baseline when the mirror moved
more than `2` degrees, otherwise triggers quiz 2 after a source movement of
more than `10` degrees. -/
def interactionC5 (s : AppState) : AppState :=
  if |s.mirrorAngle - 110| ≤ 5 then
    let needReset : Prop :=
      match s.gameState.c5MirrorAngle with
      | none => True
      | some v => 2 < |v - s.mirrorAngle|
    if needReset then
      { s with
        gameState :=
          { s.gameState with
            c5MirrorAngle := some s.mirrorAngle
            c5StartAngle := some s.incidentAngle } }
    else
      let startIncident := s.gameState.c5StartAngle.getD s.incidentAngle
      let diff := |s.incidentAngle - startIncident|
      if 10 < diff ∧ s.quizTriggered = false then { s with quizTriggered := true } else s
  else s

/-- The interaction-end evaluation of the challenge state machine
(App.tsx lines 965-1082): evaluates the current simulation against the
current challenge and mutates the game state, wizard text and pending-quiz
flag accordingly. -/
def handleInteractionEnd (s : AppState) : AppState :=
  match appSimulation s with
  | none => s
  | some sim =>
    if s.gameState.challenge = 7 then s
    else if s.gameState.challenge = 1 then interactionC1 s sim
    else if s.gameState.challenge = 2 then interactionC2 s sim
    else if s.gameState.challenge = 3 then interactionC3 s sim
    else if s.gameState.challenge = 4 then interactionC4 s
    else if s.gameState.challenge = 5 then interactionC5 s
    else s

/-- The quiz resolution function (App.tsx lines 1084-1118): clears the
pending-quiz flag; a correct answer (`0` for the challenge-4 quiz, `1` for
the challenge-5 quiz) advances the challenge and awards points/jewels, an
incorrect answer only shows a toast. -/
def handleQuizAnswer (answerIndex : ℤ) (s : AppState) : AppState :=
  let s0 := { s with quizTriggered := false }
  if s.gameState.challenge = 4 then
    if answerIndex = 0 then
      { s0 with
        gameState := { s.gameState with challenge := 5, points := s.gameState.points + 10 }
        wizardText := c5StartMsg }
    else s0
  else if s.gameState.challenge = 5 then
    if answerIndex = 1 then
      { s0 with
        gameState :=
          { s.gameState with
            challenge := 7
            jewels := s.gameState.jewels + 1
            points := s.gameState.points + 100 }
        wizardText := completeMsg }
    else s0
  else s0

/-- Number of wizard tutorial steps (App.tsx lines 877-884). -/
def tutorialStepCount : ℤ := 6

/-- The tutorial-advance handler (App.tsx lines 1185-1198); wizard text is
taken from the step table (content irrelevant to the state machine). -/
def handleTutorialNext (s : AppState) : AppState :=
  if s.gameState.challenge = 0 then
    let nextStep := s.gameState.tutorialStep + 1
    if nextStep < tutorialStepCount then
      { s with gameState := { s.gameState with tutorialStep := nextStep } }
    else
      { s with gameState := { s.gameState with challenge := 1 }, wizardText := c1StartMsg }
  else s

/-- `startGame` (App.tsx lines 1178-1183). -/
def startGame (s : AppState) : AppState :=
  { s with
    gameState := { s.gameState with started := true, challenge := 0, tutorialStep := 0 }
    mirrorAngle := 50
    incidentAngle := 60 }

/-- `resetGame` (App.tsx lines 1200-1213): sets the mirror angle to `130`,
the incident angle to `60`, the game state to its initial record, and clears
the pending quiz.  It does not touch `sourceDist` or `handleRadius`. -/
def resetGame (s : AppState) : AppState :=
  { s with
    mirrorAngle := 130
    incidentAngle := 60
    gameState := initialGameState
    wizardText := introMsg
    quizTriggered := false }

/-- The placement constraint checker (App.tsx lines 1126-1158): computes the
candidate source position and rejects it when the cross product against
mirror 2 exceeds the buffer `-15` (source behind mirror 2) or when the
source height falls below `15` (source below mirror 1). -/
def checkConstraints (s : AppState) (mAngle iAngle sDist : ℝ) : Bool :=
  let fixedIncidentDist := s.handleRadius * 0.6
  let srcX := fixedIncidentDist + sDist * Real.cos (degToRad iAngle)
  let srcY := 0 + sDist * Real.sin (degToRad iAngle)
  let mx := Real.cos (degToRad mAngle)
  let my := Real.sin (degToRad mAngle)
  let cp := mx * srcY - my * srcX
  if -15 < cp then false
  else if srcY < 15 then false
  else true

/-- `handleSetMirrorAngle` (App.tsx lines 1160-1164): commits the proposed
mirror angle only when the constraint checker accepts. -/
def handleSetMirrorAngle (val : ℝ) (s : AppState) : AppState :=
  if checkConstraints s val s.incidentAngle s.sourceDist = true then
    { s with mirrorAngle := val }
  else s

/-- `handleSetIncidentAngle` (App.tsx lines 1166-1170). -/
def handleSetIncidentAngle (val : ℝ) (s : AppState) : AppState :=
  if checkConstraints s s.mirrorAngle val s.sourceDist = true then
    { s with incidentAngle := val }
  else s

/-- `handleSetSourceDist` (App.tsx lines 1172-1176). -/
def handleSetSourceDist (val : ℝ) (s : AppState) : AppState :=
  if checkConstraints s s.mirrorAngle s.incidentAngle val = true then
    { s with sourceDist := val }
  else s

/-- Test fixture: a started app state at mirror angle `90`, incident angle
`90`, source distance `30`, default radius `100`, in challenge `1`. -/
def sampleLatchState : AppState :=
  ⟨90, 90, 30, 100, { initialGameState with started := true }, "", false⟩

/-- The control-panel angle stepper `adjustAngle` (ControlPanel.tsx lines
43-54): rounds `current + delta` and wraps once by `±360`. -/
def adjustAngle (currentVal delta : ℝ) : ℤ :=
  let n1 := jround (currentVal + delta)
  let n2 := if n1 < 0 then n1 + 360 else n1
  let n3 := if 360 ≤ n2 then n2 - 360 else n2
  n3

end

/-! ### Helper lemmas about the geometry kernel -/

lemma reflectVector_x (v n : Pt) :
    (reflectVector v n).x = v.x - 2 * (v.x * n.x + v.y * n.y) * n.x := rfl

lemma reflectVector_y (v n : Pt) :
    (reflectVector v n).y = v.y - 2 * (v.x * n.x + v.y * n.y) * n.y := rfl

/-- Reflection about the vertical unit normals: mirrors the `y` component. -/
lemma reflectVector_vert_pos (v : Pt) : reflectVector v ⟨0, 1⟩ = ⟨v.x, -v.y⟩ := by
  ext <;> simp [reflectVector] <;> ring

lemma reflectVector_vert_neg (v : Pt) : reflectVector v ⟨0, -1⟩ = ⟨v.x, -v.y⟩ := by
  ext <;> simp [reflectVector] <;> ring

/-- The self-intersection guard: a ray starting on the segment's own line never
re-intersects that segment (`t1` solves to `0`, below the `0.001` cutoff). -/
lemma intersect_on_line_eq_none (o d p1 p2 : Pt) (u : ℝ)
    (hx : o.x = p1.x + u * (p2.x - p1.x)) (hy : o.y = p1.y + u * (p2.y - p1.y)) :
    intersectRaySegment o d p1 p2 = none := by
  simp only [intersectRaySegment]
  split_ifs with hdet hcond
  · rfl
  · exfalso
    have hz : (p2.x - p1.x) * (o.y - p1.y) - (p2.y - p1.y) * (o.x - p1.x) = 0 := by
      rw [hx, hy]; ring
    rw [hz] at hcond
    have := hcond.1
    norm_num at this
  · rfl

/-- Structural consequences of a successful ray/segment intersection. -/
lemma intersect_some_elim {o d p1 p2 : Pt} {r : RayHit}
    (h : intersectRaySegment o d p1 p2 = some r) :
    1e-6 ≤ |d.x * (p2.y - p1.y) - d.y * (p2.x - p1.x)| ∧
    0.001 < r.t ∧
    r.point.x = o.x + d.x * r.t ∧ r.point.y = o.y + d.y * r.t ∧
    ∃ u, 0 ≤ u ∧ u ≤ 1 ∧ r.point.x = p1.x + u * (p2.x - p1.x) ∧
      r.point.y = p1.y + u * (p2.y - p1.y) := by
  simp only [intersectRaySegment] at h
  split_ifs at h with hdet hcond
  all_goals try exact Option.noConfusion h
  all_goals
    replace h := (Option.some.inj h).symm
    subst h
    push_neg at hdet
    have hdet0 : d.x * (p2.y - p1.y) - d.y * (p2.x - p1.x) ≠ 0 := by
      intro h0
      rw [h0] at hdet
      norm_num at hdet
    refine ⟨hdet, hcond.1, rfl, rfl,
      (d.x * (o.y - p1.y) - d.y * (o.x - p1.x)) /
        (d.x * (p2.y - p1.y) - d.y * (p2.x - p1.x)),
      hcond.2.1, hcond.2.2, ?_, ?_⟩
    all_goals
      dsimp only
      field_simp
      ring

/-- The (pre-normalization) perpendicular and its sign choice returned by a
successful intersection: the normal is `(-v4, v3)` normalized, possibly
negated so that it points against the ray. -/
lemma intersect_some_normal_raw {o d p1 p2 : Pt} {r : RayHit}
    (h : intersectRaySegment o d p1 p2 = some r) :
    ∃ len : ℝ,
      len = Real.sqrt (-(p2.y - p1.y) * -(p2.y - p1.y) + (p2.x - p1.x) * (p2.x - p1.x)) ∧
      ((r.normal = ⟨-(p2.y - p1.y) / len, (p2.x - p1.x) / len⟩ ∧
          ¬ 0 < -(p2.y - p1.y) / len * d.x + (p2.x - p1.x) / len * d.y) ∨
        (r.normal = ⟨-(-(p2.y - p1.y) / len), -((p2.x - p1.x) / len)⟩ ∧
          0 < -(p2.y - p1.y) / len * d.x + (p2.x - p1.x) / len * d.y)) := by
  simp only [intersectRaySegment] at h
  split_ifs at h with h1 h2 h3
  · replace h := (Option.some.inj h).symm
    subst h
    exact ⟨_, rfl, Or.inr ⟨rfl, by assumption⟩⟩
  · replace h := (Option.some.inj h).symm
    subst h
    exact ⟨_, rfl, Or.inl ⟨rfl, by assumption⟩⟩

/-- Evaluation engine for successful intersections: supplying the values of
the determinant, ray/segment parameters, normal length and chosen normal
computes the result of `intersectRaySegment`. -/
lemma intersect_eval_some (o d p1 p2 : Pt) (det t1 t2 len : ℝ) (n : Pt)
    (hdet : d.x * (p2.y - p1.y) - d.y * (p2.x - p1.x) = det)
    (hdetge : 1e-6 ≤ |det|)
    (ht1 : ((p2.x - p1.x) * (o.y - p1.y) - (p2.y - p1.y) * (o.x - p1.x)) / det = t1)
    (ht1' : 0.001 < t1)
    (ht2 : (d.x * (o.y - p1.y) - d.y * (o.x - p1.x)) / det = t2)
    (ht2' : 0 ≤ t2) (ht2'' : t2 ≤ 1)
    (hlen : Real.sqrt (-(p2.y - p1.y) * -(p2.y - p1.y) + (p2.x - p1.x) * (p2.x - p1.x)) = len)
    (hn : (if 0 < -(p2.y - p1.y) / len * d.x + (p2.x - p1.x) / len * d.y then
            (⟨-(-(p2.y - p1.y) / len), -((p2.x - p1.x) / len)⟩ : Pt)
          else ⟨-(p2.y - p1.y) / len, (p2.x - p1.x) / len⟩) = n) :
    intersectRaySegment o d p1 p2 = some ⟨⟨o.x + d.x * t1, o.y + d.y * t1⟩, t1, n⟩ := by
  simp only [intersectRaySegment]
  rw [hdet, ht1, ht2, hlen, hn]
  rw [if_neg (not_lt.mpr hdetge), if_pos ⟨ht1', ht2', ht2''⟩]

/-- Evaluation engine: the parallel guard fires. -/
lemma intersect_eval_none_det (o d p1 p2 : Pt)
    (h : |d.x * (p2.y - p1.y) - d.y * (p2.x - p1.x)| < 1e-6) :
    intersectRaySegment o d p1 p2 = none := by
  simp only [intersectRaySegment]
  rw [if_pos h]

/-- Evaluation engine: the parameter guard fails. -/
lemma intersect_eval_none_cond (o d p1 p2 : Pt)
    (h : ¬(0.001 < ((p2.x - p1.x) * (o.y - p1.y) - (p2.y - p1.y) * (o.x - p1.x)) /
            (d.x * (p2.y - p1.y) - d.y * (p2.x - p1.x)) ∧
          0 ≤ (d.x * (o.y - p1.y) - d.y * (o.x - p1.x)) /
            (d.x * (p2.y - p1.y) - d.y * (p2.x - p1.x)) ∧
          (d.x * (o.y - p1.y) - d.y * (o.x - p1.x)) /
            (d.x * (p2.y - p1.y) - d.y * (p2.x - p1.x)) ≤ 1)) :
    intersectRaySegment o d p1 p2 = none := by
  simp only [intersectRaySegment]
  split_ifs with h1
  · rfl
  · rfl

lemma closestHit_pair (o d : Pt) (a b : Mirror) :
    closestHit o d [a, b] = updateClosest o d (updateClosest o d none a) b := by
  simp [closestHit]

lemma updateClosest_of_none (o d : Pt) (m : Mirror) (acc : Option LoopHit)
    (h : intersectRaySegment o d m.start m.endPt = none) :
    updateClosest o d acc m = acc := by
  simp [updateClosest, h]

lemma updateClosest_none_of_some (o d : Pt) (m : Mirror) (hit : RayHit)
    (h : intersectRaySegment o d m.start m.endPt = some hit) :
    updateClosest o d none m = some ⟨hit.point, hit.t, hit.normal, m.id⟩ := by
  simp [updateClosest, h]

lemma updateClosest_some_of_some (o d : Pt) (m : Mirror) (hit : RayHit) (best : LoopHit)
    (h : intersectRaySegment o d m.start m.endPt = some hit) :
    updateClosest o d (some best) m =
      if hit.t < best.t then some ⟨hit.point, hit.t, hit.normal, m.id⟩ else some best := by
  simp [updateClosest, h]

lemma traceAux_zero (M : List Mirror) (o d : Pt) : traceAux M o d 0 = ([], []) := rfl

lemma traceAux_succ_some (M : List Mirror) (o d : Pt) (hit : LoopHit) (n : ℕ)
    (h : closestHit o d M = some hit) :
    traceAux M o d (n + 1) =
      ((hit.point :: (traceAux M hit.point (reflectVector d hit.normal) n).1),
       ((⟨⟨hit.point.x + (reflectVector d hit.normal).x * 40,
           hit.point.y + (reflectVector d hit.normal).y * 40⟩,
          radToDeg (atan2 (reflectVector d hit.normal).y
            (reflectVector d hit.normal).x)⟩ : Arrow) ::
         (traceAux M hit.point (reflectVector d hit.normal) n).2)) := by
  simp only [traceAux, h]

lemma traceAux_succ_none (M : List Mirror) (o d : Pt) (n : ℕ)
    (h : closestHit o d M = none) :
    traceAux M o d (n + 1) = ([⟨o.x + d.x * 2000, o.y + d.y * 2000⟩], []) := by
  simp only [traceAux, h]

/-- The initial unit direction built from `atan2` recovers the normalized
ray vector: the composition used by the app (`rayAngle` in degrees, then
`cos`/`sin` of `degToRad rayAngle` inside `calculateRayPath`). -/
lemma dir_of_ray (dx dy L : ℝ) (hL : 0 < L) (hlen : dx * dx + dy * dy = L * L) :
    (⟨Real.cos (degToRad (atan2 dy dx * 180 / Real.pi)),
      Real.sin (degToRad (atan2 dy dx * 180 / Real.pi))⟩ : Pt) = ⟨dx / L, dy / L⟩ := by
  have hπ : Real.pi ≠ 0 := Real.pi_ne_zero
  have hcancel : degToRad (atan2 dy dx * 180 / Real.pi) = atan2 dy dx := by
    unfold degToRad
    field_simp
  have hz : (⟨dx, dy⟩ : ℂ) ≠ 0 := by
    intro h0
    rw [Complex.ext_iff] at h0
    simp only [Complex.zero_re, Complex.zero_im] at h0
    rw [h0.1, h0.2] at hlen
    nlinarith
  have habs : Complex.abs ⟨dx, dy⟩ = L := by
    rw [Complex.abs_apply, Complex.normSq_mk, hlen]
    exact Real.sqrt_mul_self hL.le
  ext
  · show Real.cos (degToRad (atan2 dy dx * 180 / Real.pi)) = dx / L
    rw [hcancel]
    unfold atan2
    rw [Complex.cos_arg hz, habs]
  · show Real.sin (degToRad (atan2 dy dx * 180 / Real.pi)) = dy / L
    rw [hcancel]
    unfold atan2
    rw [Complex.sin_arg, habs]

/-- A ray aimed from above or below at the point `(f, 0)` of mirror 1 hits it
there with ray parameter `dist`; the normal is the vertical unit vector
opposing the ray. -/
lemma intersect_m1_hit (S d : Pt) (dist f : ℝ)
    (haimx : S.x + d.x * dist = f) (haimy : S.y + d.y * dist = 0)
    (hdist : 0.001 < dist)
    (hdet : 1e-6 ≤ 50000 * |d.y|) (hdy : d.y ≠ 0)
    (hf0 : 0 ≤ f) (hf1 : f ≤ 50000) :
    intersectRaySegment S d ⟨0, 0⟩ ⟨50000, 0⟩ =
      some ⟨⟨f, 0⟩, dist, if 0 < d.y then ⟨0, -1⟩ else ⟨0, 1⟩⟩ := by
  have h50 : (-50000 : ℝ) * d.y ≠ 0 := by
    intro h0
    apply hdy
    nlinarith [h0]
  have heval := intersect_eval_some S d ⟨0, 0⟩ ⟨50000, 0⟩ (-50000 * d.y) dist (f / 50000)
    50000 (if 0 < d.y then ⟨0, -1⟩ else ⟨0, 1⟩)
    (by simp only; ring)
    (by rw [abs_mul, abs_neg, abs_of_pos (by norm_num : (0:ℝ) < 50000)]; linarith)
    (by
      simp only
      rw [div_eq_iff h50]
      linear_combination 50000 * haimy)
    hdist
    (by
      simp only
      rw [div_eq_div_iff h50 (by norm_num : (50000 : ℝ) ≠ 0)]
      linear_combination (50000 * d.x) * haimy - (50000 * d.y) * haimx)
    (by positivity)
    (by rw [div_le_one (by norm_num : (0:ℝ) < 50000)]; exact hf1)
    (by
      simp only
      rw [show (-((0:ℝ) - 0) * -(0 - 0) + (50000 - 0) * (50000 - 0)) = 50000 * 50000 by
        norm_num]
      exact Real.sqrt_mul_self (by norm_num))
    (by
      simp only
      split_ifs with h1 h2 h2
      · ext <;> norm_num
      · exfalso; apply h2; nlinarith [h1]
      · exfalso; apply h1; nlinarith [h2]
      · ext <;> norm_num)
  rw [heval]
  simp only [haimx, haimy]

/-- A ray starting on mirror 1's line never hits mirror 1 again. -/
lemma m1_self_none (o d : Pt) (hy : o.y = 0) :
    intersectRaySegment o d ⟨0, 0⟩ ⟨50000, 0⟩ = none := by
  apply intersect_on_line_eq_none o d _ _ (o.x / 50000)
  · simp only
    field_simp
  · simp only [hy]
    ring

/-- The two app mirrors at mirror angle `90`. -/
lemma mirrorsAt_90 :
    mirrorsAt 90 = [⟨⟨0, 0⟩, ⟨50000, 0⟩, 0, "m1"⟩, ⟨⟨0, 0⟩, ⟨0, 50000⟩, 90, "m2"⟩] := by
  unfold mirrorsAt
  rw [show degToRad 90 = Real.pi / 2 by unfold degToRad; ring, Real.cos_pi_div_two,
    Real.sin_pi_div_two]
  norm_num

/-- Unfolding the app simulation: the traced path starts at the source and
proceeds in direction `(-cos i, -sin i)` (the unit vector from the source
toward the incidence point). -/
lemma simulate_path_eq (θ i dist R : ℝ) (hdist : 0 < dist) :
    (simulate θ i dist R).path =
      (⟨R * 0.6 + dist * Real.cos (degToRad i), 0 + dist * Real.sin (degToRad i)⟩ : Pt) ::
        (traceAux (mirrorsAt θ)
          ⟨R * 0.6 + dist * Real.cos (degToRad i), 0 + dist * Real.sin (degToRad i)⟩
          ⟨-Real.cos (degToRad i), -Real.sin (degToRad i)⟩ 20).1 := by
  have hd : (⟨Real.cos (degToRad (atan2 (0 - (0 + dist * Real.sin (degToRad i)))
        (R * 0.6 - (R * 0.6 + dist * Real.cos (degToRad i))) * 180 / Real.pi)),
      Real.sin (degToRad (atan2 (0 - (0 + dist * Real.sin (degToRad i)))
        (R * 0.6 - (R * 0.6 + dist * Real.cos (degToRad i))) * 180 / Real.pi))⟩ : Pt) =
      ⟨-Real.cos (degToRad i), -Real.sin (degToRad i)⟩ := by
    rw [dir_of_ray (R * 0.6 - (R * 0.6 + dist * Real.cos (degToRad i)))
      (0 - (0 + dist * Real.sin (degToRad i))) dist hdist
      (by linear_combination (dist * dist) * (Real.sin_sq_add_cos_sq (degToRad i)))]
    have hne := ne_of_gt hdist
    ext
    · simp only
      field_simp
      ring
    · simp only
      field_simp
      ring
  simp only [simulate, calculateRayPath]
  rw [hd]

/-- `reflectionCount` is computed from the path length. -/
lemma simulate_reflectionCount_eq (θ i dist R : ℝ) :
    (simulate θ i dist R).reflectionCount =
      max 0 (((simulate θ i dist R).path.length : ℤ) - 2) := rfl

/-- C6: for every unit vector `v` and unit normal `n`, reflecting twice about
the same normal returns the original vector (`reflectVector` is an
involution). -/
theorem reflect_involution (v n : Pt) (hv : v.x ^ 2 + v.y ^ 2 = 1)
    (hn : n.x ^ 2 + n.y ^ 2 = 1) :
    reflectVector (reflectVector v n) n = v := by
  ext
  · simp only [reflectVector_x, reflectVector_y]
    linear_combination (4 * (v.x * n.x + v.y * n.y) * n.x) * hn
  · simp only [reflectVector_x, reflectVector_y]
    linear_combination (4 * (v.x * n.x + v.y * n.y) * n.y) * hn

/-- Witness for C6 at `v = (0,1)`, `n = (1,0)`. -/
theorem reflect_involution_witness :
    reflectVector (reflectVector ⟨0, 1⟩ ⟨1, 0⟩) ⟨1, 0⟩ = (⟨0, 1⟩ : Pt) :=
  reflect_involution ⟨0, 1⟩ ⟨1, 0⟩ (by norm_num) (by norm_num)

/-- C5: every successful `intersectRaySegment` returns a unit-length normal
whose dot product with the incoming ray direction is strictly negative. -/
theorem intersect_normal_spec (o d p1 p2 : Pt) (r : RayHit)
    (hd : d ≠ ⟨0, 0⟩) (h : intersectRaySegment o d p1 p2 = some r) :
    r.normal.x ^ 2 + r.normal.y ^ 2 = 1 ∧ r.normal.x * d.x + r.normal.y * d.y < 0 := by
  obtain ⟨hdet, -⟩ := intersect_some_elim h
  obtain ⟨len, hlen, hcases⟩ := intersect_some_normal_raw h
  have hdet0 : d.x * (p2.y - p1.y) - d.y * (p2.x - p1.x) ≠ 0 := by
    intro h0; rw [h0] at hdet; norm_num at hdet
  have hsq : 0 < -(p2.y - p1.y) * -(p2.y - p1.y) + (p2.x - p1.x) * (p2.x - p1.x) := by
    rcases eq_or_ne (p2.x - p1.x) 0 with h3 | h3
    · rcases eq_or_ne (p2.y - p1.y) 0 with h4 | h4
      · exfalso; apply hdet0; rw [h3, h4]; ring
      · have := mul_self_pos.mpr h4
        nlinarith [mul_self_nonneg (p2.x - p1.x)]
    · have := mul_self_pos.mpr h3
      nlinarith [mul_self_nonneg (p2.y - p1.y)]
  have hlenpos : 0 < len := hlen ▸ Real.sqrt_pos.mpr hsq
  have hlensq : len ^ 2 = -(p2.y - p1.y) * -(p2.y - p1.y) + (p2.x - p1.x) * (p2.x - p1.x) :=
    hlen ▸ Real.sq_sqrt hsq.le
  have hlenne : len ≠ 0 := ne_of_gt hlenpos
  have hunit : (-(p2.y - p1.y) / len) ^ 2 + ((p2.x - p1.x) / len) ^ 2 = 1 := by
    rw [div_pow, div_pow, div_add_div_same, hlensq, div_eq_one_iff_eq (ne_of_gt hsq)]
    ring
  have hdotval : -(p2.y - p1.y) / len * d.x + (p2.x - p1.x) / len * d.y
      = -(d.x * (p2.y - p1.y) - d.y * (p2.x - p1.x)) / len := by
    field_simp; ring
  rcases hcases with ⟨hn, hflip⟩ | ⟨hn, hflip⟩
  · constructor
    · rw [hn]; exact hunit
    · rw [hn]
      push_neg at hflip
      rcases lt_or_eq_of_le hflip with hlt | heq
      · exact hlt
      · exfalso
        rw [hdotval] at heq
        apply hdet0
        field_simp at heq
        linarith
  · constructor
    · rw [hn]
      simp only
      linear_combination hunit
    · rw [hn]
      simp only
      nlinarith [hflip]

/-- Concrete evaluation of `intersectRaySegment` used by the C5 witness. -/
lemma intersect_witness_eval :
    intersectRaySegment ⟨2, 5⟩ ⟨0, -1⟩ ⟨0, 0⟩ ⟨10, 0⟩ =
      some ⟨⟨2, 0⟩, 5, ⟨0, 1⟩⟩ := by
  have h100 : Real.sqrt (-(0 - 0) * -(0 - 0) + (10 - 0) * (10 - 0)) = 10 := by
    rw [show (-(0 - 0) * -(0 - 0) + (10 - 0) * (10 - 0) : ℝ) = 10 * 10 by norm_num]
    exact Real.sqrt_mul_self (by norm_num)
  simp only [intersectRaySegment, h100]
  norm_num

/-- Witness for C5 at a concrete downward ray onto a horizontal segment. -/
theorem intersect_normal_spec_witness :
    ((⟨0, 1⟩ : Pt).x ^ 2 + (⟨0, 1⟩ : Pt).y ^ 2 = 1 ∧
      (⟨0, 1⟩ : Pt).x * (⟨0, -1⟩ : Pt).x + (⟨0, 1⟩ : Pt).y * (⟨0, -1⟩ : Pt).y < 0) :=
  intersect_normal_spec ⟨2, 5⟩ ⟨0, -1⟩ ⟨0, 0⟩ ⟨10, 0⟩ ⟨⟨2, 0⟩, 5, ⟨0, 1⟩⟩
    (by intro h; injection h with hx hy; norm_num at hy) intersect_witness_eval

lemma reflect_down_up : reflectVector ⟨0, -1⟩ ⟨0, 1⟩ = (⟨0, 1⟩ : Pt) := by
  rw [reflectVector_vert_pos]
  ext <;> norm_num

lemma reflect_up_down : reflectVector ⟨0, 1⟩ ⟨0, -1⟩ = (⟨0, -1⟩ : Pt) := by
  rw [reflectVector_vert_neg]

/-- The vertical drop from `(60, 30)` hits mirror 1 at `(60, 0)`. -/
lemma hit_m1_down : intersectRaySegment ⟨60, 30⟩ ⟨0, -1⟩ ⟨0, 0⟩ ⟨50000, 0⟩ =
    some ⟨⟨60, 0⟩, 30, ⟨0, 1⟩⟩ := by
  have h := intersect_m1_hit ⟨60, 30⟩ ⟨0, -1⟩ 30 60 (by norm_num) (by norm_num)
    (by norm_num) (by norm_num) (by norm_num) (by norm_num) (by norm_num)
  rw [h, if_neg (by norm_num : ¬(0 : ℝ) < (⟨(0 : ℝ), -1⟩ : Pt).y)]

/-- Common start-state normalization at incident angle `90`, distance `30`,
radius `100`. -/
lemma start_90_30 : (⟨100 * 0.6 + 30 * Real.cos (degToRad 90),
    0 + 30 * Real.sin (degToRad 90)⟩ : Pt) = ⟨60, 30⟩ := by
  rw [show degToRad 90 = Real.pi / 2 by unfold degToRad; ring, Real.cos_pi_div_two,
    Real.sin_pi_div_two]
  ext <;> norm_num

lemma dir_90_down : (⟨-Real.cos (degToRad 90), -Real.sin (degToRad 90)⟩ : Pt)
    = ⟨0, -1⟩ := by
  rw [show degToRad 90 = Real.pi / 2 by unfold degToRad; ring, Real.cos_pi_div_two,
    Real.sin_pi_div_two]
  ext <;> norm_num

/-- Full evaluation of the standard configuration at mirror angle `90`,
incident angle `90`, distance `30`: the ray drops straight down onto mirror 1
at `(60, 0)`, reflects straight up and escapes - one bounce. -/
lemma simulate_90_90_path :
    (simulate 90 90 30 100).path = [⟨60, 30⟩, ⟨60, 0⟩, ⟨60, 2000⟩] := by
  rw [simulate_path_eq 90 90 30 100 (by norm_num), start_90_30, dir_90_down, mirrorsAt_90]
  have hm2a : intersectRaySegment ⟨60, 30⟩ ⟨0, -1⟩ ⟨0, 0⟩ ⟨0, 50000⟩ = none :=
    intersect_eval_none_det _ _ _ _ (by norm_num)
  have hch1 : closestHit ⟨60, 30⟩ ⟨0, -1⟩
      [⟨⟨0, 0⟩, ⟨50000, 0⟩, 0, "m1"⟩, ⟨⟨0, 0⟩, ⟨0, 50000⟩, 90, "m2"⟩] =
      some ⟨⟨60, 0⟩, 30, ⟨0, 1⟩, "m1"⟩ := by
    rw [closestHit_pair,
      updateClosest_none_of_some ⟨60, 30⟩ ⟨0, -1⟩ ⟨⟨0, 0⟩, ⟨50000, 0⟩, 0, "m1"⟩
        ⟨⟨60, 0⟩, 30, ⟨0, 1⟩⟩ hit_m1_down,
      updateClosest_of_none ⟨60, 30⟩ ⟨0, -1⟩ ⟨⟨0, 0⟩, ⟨0, 50000⟩, 90, "m2"⟩ _ hm2a]
  have hm1b : intersectRaySegment ⟨60, 0⟩ ⟨0, 1⟩ ⟨0, 0⟩ ⟨50000, 0⟩ = none :=
    m1_self_none _ _ rfl
  have hm2b : intersectRaySegment ⟨60, 0⟩ ⟨0, 1⟩ ⟨0, 0⟩ ⟨0, 50000⟩ = none :=
    intersect_eval_none_det _ _ _ _ (by norm_num)
  have hch2 : closestHit ⟨60, 0⟩ ⟨0, 1⟩
      [⟨⟨0, 0⟩, ⟨50000, 0⟩, 0, "m1"⟩, ⟨⟨0, 0⟩, ⟨0, 50000⟩, 90, "m2"⟩] = none := by
    rw [closestHit_pair,
      updateClosest_of_none ⟨60, 0⟩ ⟨0, 1⟩ ⟨⟨0, 0⟩, ⟨50000, 0⟩, 0, "m1"⟩ none hm1b,
      updateClosest_of_none ⟨60, 0⟩ ⟨0, 1⟩ ⟨⟨0, 0⟩, ⟨0, 50000⟩, 90, "m2"⟩ none hm2b]
  rw [traceAux_succ_some _ _ _ ⟨⟨60, 0⟩, 30, ⟨0, 1⟩, "m1"⟩ 19 hch1]
  dsimp only
  rw [reflect_down_up, traceAux_succ_none _ _ _ 18 hch2]
  simp only [List.cons.injEq, Pt.mk.injEq]
  norm_num

lemma simulate_90_90_refl : (simulate 90 90 30 100).reflectionCount = 1 := by
  rw [simulate_reflectionCount_eq, simulate_90_90_path]
  norm_num

/-- The two app mirrors at mirror angle `0` coincide along the positive
`x`-axis. -/
lemma mirrorsAt_0 :
    mirrorsAt 0 = [⟨⟨0, 0⟩, ⟨50000, 0⟩, 0, "m1"⟩, ⟨⟨0, 0⟩, ⟨50000, 0⟩, 0, "m2"⟩] := by
  unfold mirrorsAt
  rw [show degToRad 0 = 0 by unfold degToRad; ring, Real.cos_zero, Real.sin_zero]
  norm_num

/-- Full evaluation of the degenerate configuration at mirror angle `0`:
the ray from `(60, 30)` aimed straight down hits the coincident mirror line
once at `(60, 0)` and escapes upward. -/
lemma simulate_0_90_path :
    (simulate 0 90 30 100).path = [⟨60, 30⟩, ⟨60, 0⟩, ⟨60, 2000⟩] := by
  rw [simulate_path_eq 0 90 30 100 (by norm_num), start_90_30, dir_90_down, mirrorsAt_0]
  have hch1 : closestHit ⟨60, 30⟩ ⟨0, -1⟩
      [⟨⟨0, 0⟩, ⟨50000, 0⟩, 0, "m1"⟩, ⟨⟨0, 0⟩, ⟨50000, 0⟩, 0, "m2"⟩] =
      some ⟨⟨60, 0⟩, 30, ⟨0, 1⟩, "m1"⟩ := by
    rw [closestHit_pair,
      updateClosest_none_of_some ⟨60, 30⟩ ⟨0, -1⟩ ⟨⟨0, 0⟩, ⟨50000, 0⟩, 0, "m1"⟩
        ⟨⟨60, 0⟩, 30, ⟨0, 1⟩⟩ hit_m1_down,
      updateClosest_some_of_some ⟨60, 30⟩ ⟨0, -1⟩ ⟨⟨0, 0⟩, ⟨50000, 0⟩, 0, "m2"⟩
        ⟨⟨60, 0⟩, 30, ⟨0, 1⟩⟩ ⟨⟨60, 0⟩, 30, ⟨0, 1⟩, "m1"⟩ hit_m1_down,
      if_neg (by norm_num : ¬(⟨⟨60, 0⟩, 30, ⟨0, 1⟩⟩ : RayHit).t
        < (⟨⟨60, 0⟩, 30, ⟨0, 1⟩, "m1"⟩ : LoopHit).t)]
  have hm1b : intersectRaySegment ⟨60, 0⟩ ⟨0, 1⟩ ⟨0, 0⟩ ⟨50000, 0⟩ = none :=
    m1_self_none _ _ rfl
  have hch2 : closestHit ⟨60, 0⟩ ⟨0, 1⟩
      [⟨⟨0, 0⟩, ⟨50000, 0⟩, 0, "m1"⟩, ⟨⟨0, 0⟩, ⟨50000, 0⟩, 0, "m2"⟩] = none := by
    rw [closestHit_pair,
      updateClosest_of_none ⟨60, 0⟩ ⟨0, 1⟩ ⟨⟨0, 0⟩, ⟨50000, 0⟩, 0, "m1"⟩ none hm1b,
      updateClosest_of_none ⟨60, 0⟩ ⟨0, 1⟩ ⟨⟨0, 0⟩, ⟨50000, 0⟩, 0, "m2"⟩ none hm1b]
  rw [traceAux_succ_some _ _ _ ⟨⟨60, 0⟩, 30, ⟨0, 1⟩, "m1"⟩ 19 hch1]
  dsimp only
  rw [reflect_down_up, traceAux_succ_none _ _ _ 18 hch2]
  simp only [List.cons.injEq, Pt.mk.injEq]
  norm_num

/-- C4 counterexample: at mirror angle `0` (coincident mirrors) the standard
source configuration (source above mirror 1 at incident angle `90`, distance
`30`, aimed at the fixed incidence point `(60, 0)`) produces one reflection,
not zero: the downward ray is not parallel to the mirror line, so the
parallel guard does not suppress the hit. -/
theorem degenerate_mirror_reflections_cex :
    ¬((simulate 0 90 30 100).reflectionCount = 0) := by
  rw [simulate_reflectionCount_eq, simulate_0_90_path]
  norm_num

/-- C4 (amended): at mirror angle `0` the standard source configuration
yields exactly one reflection - the ray bounces once off the coincident
mirror line at the incidence point and then escapes; only the re-hit of the
same line is suppressed (by the self-intersection guard). -/
theorem degenerate_mirror_one_reflection :
    (simulate 0 90 30 100).reflectionCount = 1 ∧
      (simulate 0 90 30 100).path = [⟨60, 30⟩, ⟨60, 0⟩, ⟨60, 2000⟩] := by
  refine ⟨?_, simulate_0_90_path⟩
  rw [simulate_reflectionCount_eq, simulate_0_90_path]
  norm_num

/-! ### Claim theorems: reflection-count identity (C1) -/

lemma calculateRayPath_path_eq (S : Pt) (a : ℝ) (M : List Mirror) (n : ℕ) :
    (calculateRayPath S a M n).path =
      S :: (traceAux M S ⟨Real.cos (degToRad a), Real.sin (degToRad a)⟩ n).1 := rfl

lemma calculateRayPath_arrows_len (S : Pt) (a : ℝ) (M : List Mirror) (n : ℕ) :
    (calculateRayPath S a M n).arrows.length =
      (traceAux M S ⟨Real.cos (degToRad a), Real.sin (degToRad a)⟩ n).2.length + 1 := by
  simp [calculateRayPath]

/-- Loop invariant: the bounce loop returns one more path point than arrows
exactly when it escaped; on fuel exhaustion the counts are equal. -/
lemma traceAux_length : ∀ (n : ℕ) (M : List Mirror) (o d : Pt),
    (traceAux M o d n).1.length = (traceAux M o d n).2.length + 1 ∨
      (traceAux M o d n).1.length = (traceAux M o d n).2.length := by
  intro n
  induction n with
  | zero => intro M o d; right; rfl
  | succ k ih =>
    intro M o d
    cases hch : closestHit o d M with
    | none =>
      left
      rw [traceAux_succ_none M o d k hch]
      rfl
    | some hit =>
      rw [traceAux_succ_some M o d hit k hch]
      rcases ih M hit.point (reflectVector d hit.normal) with h | h
      · left
        simp only [List.length_cons, h]
      · right
        simp only [List.length_cons, h]

/-- C1 (amended): for every traced path with the default bounce budget `20`,
the computed reflection count `max 0 (path.length - 2)` is nonnegative, the
path has either one more point than recorded bounce arrows (ray escaped) or
equally many (budget exhausted), and in the escape case the number of
recorded bounces (`arrows.length - 1`, one arrow per bounce after the
initial arrow) equals `path.length - 2`.  On exhaustion the bounce count is
`path.length - 1`, so the identity of the claim fails there. -/
theorem calculateRayPath_bounce_count (startPoint : Pt) (startAngleDeg : ℝ)
    (mirrors : List Mirror) :
    0 ≤ max 0 (((calculateRayPath startPoint startAngleDeg mirrors 20).path.length : ℤ) - 2) ∧
    ((calculateRayPath startPoint startAngleDeg mirrors 20).path.length =
        (calculateRayPath startPoint startAngleDeg mirrors 20).arrows.length + 1 ∨
      (calculateRayPath startPoint startAngleDeg mirrors 20).path.length =
        (calculateRayPath startPoint startAngleDeg mirrors 20).arrows.length) ∧
    ((calculateRayPath startPoint startAngleDeg mirrors 20).path.length =
        (calculateRayPath startPoint startAngleDeg mirrors 20).arrows.length + 1 →
      ((calculateRayPath startPoint startAngleDeg mirrors 20).arrows.length : ℤ) - 1 =
        ((calculateRayPath startPoint startAngleDeg mirrors 20).path.length : ℤ) - 2) := by
  refine ⟨le_max_left _ _, ?_, ?_⟩
  · have h := traceAux_length 20 mirrors startPoint
      ⟨Real.cos (degToRad startAngleDeg), Real.sin (degToRad startAngleDeg)⟩
    rw [calculateRayPath_path_eq, calculateRayPath_arrows_len]
    rcases h with h | h
    · left
      simp only [List.length_cons, h]
    · right
      simp only [List.length_cons, h]
  · intro hesc
    rw [hesc]
    push_cast
    ring

lemma dir_90_up : (⟨Real.cos (degToRad 90), Real.sin (degToRad 90)⟩ : Pt)
    = ⟨0, 1⟩ := by
  rw [show degToRad 90 = Real.pi / 2 by unfold degToRad; ring, Real.cos_pi_div_two,
    Real.sin_pi_div_two]

/-- Upward ray from between the parallel mirrors misses the bottom one. -/
lemma cexA_up_from_start :
    intersectRaySegment ⟨5, 5⟩ ⟨0, 1⟩ ⟨0, 0⟩ ⟨10, 0⟩ = none := by
  apply intersect_eval_none_cond
  norm_num

/-- Upward ray from between the parallel mirrors hits the top one. -/
lemma cexB_up_from_start :
    intersectRaySegment ⟨5, 5⟩ ⟨0, 1⟩ ⟨0, 10⟩ ⟨10, 10⟩ =
      some ⟨⟨5, 10⟩, 5, ⟨0, -1⟩⟩ := by
  have h100 : Real.sqrt (-(10 - 10) * -(10 - 10) + (10 - 0) * (10 - 0)) = 10 := by
    rw [show (-(10 - 10) * -(10 - 10) + (10 - 0) * (10 - 0) : ℝ) = 10 * 10 by norm_num]
    exact Real.sqrt_mul_self (by norm_num)
  simp only [intersectRaySegment, h100]
  norm_num

/-- The downward ray leaving the top mirror does not re-hit it (the
`t > 0.001` self-intersection guard). -/
lemma cexB_down_from_top :
    intersectRaySegment ⟨5, 10⟩ ⟨0, -1⟩ ⟨0, 10⟩ ⟨10, 10⟩ = none := by
  apply intersect_eval_none_cond
  norm_num

/-- The downward ray from the top mirror hits the bottom one. -/
lemma cexA_down_from_top :
    intersectRaySegment ⟨5, 10⟩ ⟨0, -1⟩ ⟨0, 0⟩ ⟨10, 0⟩ =
      some ⟨⟨5, 0⟩, 10, ⟨0, 1⟩⟩ := by
  have h100 : Real.sqrt (-(0 - 0) * -(0 - 0) + (10 - 0) * (10 - 0)) = 10 := by
    rw [show (-(0 - 0) * -(0 - 0) + (10 - 0) * (10 - 0) : ℝ) = 10 * 10 by norm_num]
    exact Real.sqrt_mul_self (by norm_num)
  simp only [intersectRaySegment, h100]
  norm_num

/-- The upward ray leaving the bottom mirror does not re-hit it. -/
lemma cexA_up_from_bot :
    intersectRaySegment ⟨5, 0⟩ ⟨0, 1⟩ ⟨0, 0⟩ ⟨10, 0⟩ = none := by
  apply intersect_eval_none_cond
  norm_num

/-- The upward ray from the bottom mirror hits the top one. -/
lemma cexB_up_from_bot :
    intersectRaySegment ⟨5, 0⟩ ⟨0, 1⟩ ⟨0, 10⟩ ⟨10, 10⟩ =
      some ⟨⟨5, 10⟩, 10, ⟨0, -1⟩⟩ := by
  have h100 : Real.sqrt (-(10 - 10) * -(10 - 10) + (10 - 0) * (10 - 0)) = 10 := by
    rw [show (-(10 - 10) * -(10 - 10) + (10 - 0) * (10 - 0) : ℝ) = 10 * 10 by norm_num]
    exact Real.sqrt_mul_self (by norm_num)
  simp only [intersectRaySegment, h100]
  norm_num

lemma cex_chStart : closestHit ⟨5, 5⟩ ⟨0, 1⟩
    [⟨⟨0, 0⟩, ⟨10, 0⟩, 0, "a"⟩, ⟨⟨0, 10⟩, ⟨10, 10⟩, 0, "b"⟩] =
    some ⟨⟨5, 10⟩, 5, ⟨0, -1⟩, "b"⟩ := by
  rw [closestHit_pair,
    updateClosest_of_none ⟨5, 5⟩ ⟨0, 1⟩ ⟨⟨0, 0⟩, ⟨10, 0⟩, 0, "a"⟩ none cexA_up_from_start,
    updateClosest_none_of_some ⟨5, 5⟩ ⟨0, 1⟩ ⟨⟨0, 10⟩, ⟨10, 10⟩, 0, "b"⟩
      ⟨⟨5, 10⟩, 5, ⟨0, -1⟩⟩ cexB_up_from_start]

lemma cex_chTop : closestHit ⟨5, 10⟩ ⟨0, -1⟩
    [⟨⟨0, 0⟩, ⟨10, 0⟩, 0, "a"⟩, ⟨⟨0, 10⟩, ⟨10, 10⟩, 0, "b"⟩] =
    some ⟨⟨5, 0⟩, 10, ⟨0, 1⟩, "a"⟩ := by
  rw [closestHit_pair,
    updateClosest_none_of_some ⟨5, 10⟩ ⟨0, -1⟩ ⟨⟨0, 0⟩, ⟨10, 0⟩, 0, "a"⟩
      ⟨⟨5, 0⟩, 10, ⟨0, 1⟩⟩ cexA_down_from_top,
    updateClosest_of_none ⟨5, 10⟩ ⟨0, -1⟩ ⟨⟨0, 10⟩, ⟨10, 10⟩, 0, "b"⟩ _ cexB_down_from_top]

lemma cex_chBot : closestHit ⟨5, 0⟩ ⟨0, 1⟩
    [⟨⟨0, 0⟩, ⟨10, 0⟩, 0, "a"⟩, ⟨⟨0, 10⟩, ⟨10, 10⟩, 0, "b"⟩] =
    some ⟨⟨5, 10⟩, 10, ⟨0, -1⟩, "b"⟩ := by
  rw [closestHit_pair,
    updateClosest_of_none ⟨5, 0⟩ ⟨0, 1⟩ ⟨⟨0, 0⟩, ⟨10, 0⟩, 0, "a"⟩ none cexA_up_from_bot,
    updateClosest_none_of_some ⟨5, 0⟩ ⟨0, 1⟩ ⟨⟨0, 10⟩, ⟨10, 10⟩, 0, "b"⟩
      ⟨⟨5, 10⟩, 10, ⟨0, -1⟩⟩ cexB_up_from_bot]

/-- Between two parallel facing mirrors the ray cycles forever: at every
fuel level the bounce loop adds exactly one path point and one arrow from
either of the two recurring states, so both output lists have length equal
to the fuel. -/
lemma cex_cycle : ∀ n : ℕ,
    ((traceAux [⟨⟨0, 0⟩, ⟨10, 0⟩, 0, "a"⟩, ⟨⟨0, 10⟩, ⟨10, 10⟩, 0, "b"⟩]
        ⟨5, 10⟩ ⟨0, -1⟩ n).1.length = n ∧
      (traceAux [⟨⟨0, 0⟩, ⟨10, 0⟩, 0, "a"⟩, ⟨⟨0, 10⟩, ⟨10, 10⟩, 0, "b"⟩]
        ⟨5, 10⟩ ⟨0, -1⟩ n).2.length = n) ∧
    ((traceAux [⟨⟨0, 0⟩, ⟨10, 0⟩, 0, "a"⟩, ⟨⟨0, 10⟩, ⟨10, 10⟩, 0, "b"⟩]
        ⟨5, 0⟩ ⟨0, 1⟩ n).1.length = n ∧
      (traceAux [⟨⟨0, 0⟩, ⟨10, 0⟩, 0, "a"⟩, ⟨⟨0, 10⟩, ⟨10, 10⟩, 0, "b"⟩]
        ⟨5, 0⟩ ⟨0, 1⟩ n).2.length = n) := by
  intro n
  induction n with
  | zero => exact ⟨⟨rfl, rfl⟩, rfl, rfl⟩
  | succ k ih =>
    constructor
    · rw [traceAux_succ_some _ _ _ ⟨⟨5, 0⟩, 10, ⟨0, 1⟩, "a"⟩ k cex_chTop]
      dsimp only
      rw [reflect_down_up]
      simp only [List.length_cons, ih.2.1, ih.2.2]
      exact ⟨trivial, trivial⟩
    · rw [traceAux_succ_some _ _ _ ⟨⟨5, 10⟩, 10, ⟨0, -1⟩, "b"⟩ k cex_chBot]
      dsimp only
      rw [reflect_up_down]
      simp only [List.length_cons, ih.1.1, ih.1.2]
      exact ⟨trivial, trivial⟩

/-- Concrete lengths for the exhaustion run: starting between the parallel
mirrors, all `20` bounce rounds are consumed and the ray never escapes. -/
lemma cex_lengths :
    (calculateRayPath ⟨5, 5⟩ 90 [⟨⟨0, 0⟩, ⟨10, 0⟩, 0, "a"⟩, ⟨⟨0, 10⟩, ⟨10, 10⟩, 0, "b"⟩]
        20).path.length = 21 ∧
      (calculateRayPath ⟨5, 5⟩ 90 [⟨⟨0, 0⟩, ⟨10, 0⟩, 0, "a"⟩, ⟨⟨0, 10⟩, ⟨10, 10⟩, 0, "b"⟩]
        20).arrows.length = 21 := by
  rw [calculateRayPath_path_eq, calculateRayPath_arrows_len, dir_90_up]
  rw [traceAux_succ_some _ _ _ ⟨⟨5, 10⟩, 5, ⟨0, -1⟩, "b"⟩ 19 cex_chStart]
  dsimp only
  rw [reflect_up_down]
  simp only [List.length_cons, (cex_cycle 19).1.1, (cex_cycle 19).1.2]
  exact ⟨trivial, trivial⟩

/-- C1 counterexample: with two parallel facing mirrors the bounce budget is
exhausted without an escape point; the path then records `20` bounces
(`arrows.length - 1`) over `21` path points, so the claimed identity
`bounces = path.length - 2` fails (`20 ≠ 19`). -/
theorem bounce_count_identity_cex :
    (calculateRayPath ⟨5, 5⟩ 90 [⟨⟨0, 0⟩, ⟨10, 0⟩, 0, "a"⟩, ⟨⟨0, 10⟩, ⟨10, 10⟩, 0, "b"⟩]
        20).path.length = 21 ∧
      (calculateRayPath ⟨5, 5⟩ 90 [⟨⟨0, 0⟩, ⟨10, 0⟩, 0, "a"⟩, ⟨⟨0, 10⟩, ⟨10, 10⟩, 0, "b"⟩]
        20).arrows.length = 21 ∧
      ¬(((calculateRayPath ⟨5, 5⟩ 90
            [⟨⟨0, 0⟩, ⟨10, 0⟩, 0, "a"⟩, ⟨⟨0, 10⟩, ⟨10, 10⟩, 0, "b"⟩] 20).arrows.length : ℤ)
          - 1 =
        ((calculateRayPath ⟨5, 5⟩ 90
            [⟨⟨0, 0⟩, ⟨10, 0⟩, 0, "a"⟩, ⟨⟨0, 10⟩, ⟨10, 10⟩, 0, "b"⟩] 20).path.length : ℤ)
          - 2) := by
  refine ⟨cex_lengths.1, cex_lengths.2, ?_⟩
  rw [cex_lengths.1, cex_lengths.2]
  norm_num

/-- Witness for C1 (amended): with no mirrors the ray escapes at once, the
path has two points and one arrow, and the identity holds. -/
theorem calculateRayPath_bounce_count_witness :
    0 ≤ max 0 (((calculateRayPath ⟨0, 0⟩ 0 [] 20).path.length : ℤ) - 2) ∧
      (((calculateRayPath ⟨0, 0⟩ 0 [] 20).arrows.length : ℤ) - 1 =
        ((calculateRayPath ⟨0, 0⟩ 0 [] 20).path.length : ℤ) - 2) :=
  ⟨(calculateRayPath_bounce_count ⟨0, 0⟩ 0 []).1,
    (calculateRayPath_bounce_count ⟨0, 0⟩ 0 []).2.2 rfl⟩

/-! ### Claim theorems: challenge-1 latch protocol -/

lemma handleInteractionEnd_eq_c1 (s : AppState) (sim : SimResult)
    (hsim : appSimulation s = some sim) (hc : s.gameState.challenge = 1) :
    handleInteractionEnd s = interactionC1 s sim := by
  unfold handleInteractionEnd
  rw [hsim]
  simp only [hc]
  norm_num

lemma handleInteractionEnd_of_none (s : AppState) (hsim : appSimulation s = none) :
    handleInteractionEnd s = s := by
  unfold handleInteractionEnd
  rw [hsim]

lemma interactionC1_methodA_mono (s : AppState) (sim : SimResult)
    (h : s.gameState.c1Progress.methodA = true) :
    (interactionC1 s sim).gameState.c1Progress.methodA = true := by
  simp only [interactionC1]
  split_ifs <;> simp_all

lemma interactionC1_methodB_mono (s : AppState) (sim : SimResult)
    (h : s.gameState.c1Progress.methodB = true) :
    (interactionC1 s sim).gameState.c1Progress.methodB = true := by
  simp only [interactionC1]
  split_ifs <;> simp_all

lemma interactionC2_progress (s : AppState) (sim : SimResult) :
    (interactionC2 s sim).gameState.c1Progress = s.gameState.c1Progress := by
  simp only [interactionC2]
  split_ifs <;> rfl

lemma interactionC3_progress (s : AppState) (sim : SimResult) :
    (interactionC3 s sim).gameState.c1Progress = s.gameState.c1Progress := by
  simp only [interactionC3]
  cases hlt : lastTwo sim.path with
  | none => split_ifs <;> rfl
  | some pr =>
    obtain ⟨a, b⟩ := pr
    dsimp only
    split_ifs <;> rfl

lemma interactionC4_gameState (s : AppState) :
    (interactionC4 s).gameState = s.gameState := by
  simp only [interactionC4]
  split_ifs <;> rfl

lemma interactionC5_progress (s : AppState) :
    (interactionC5 s).gameState.c1Progress = s.gameState.c1Progress := by
  simp only [interactionC5]
  split_ifs <;> rfl

lemma interactionC1_latchA (s : AppState) (sim : SimResult)
    (hr : sim.reflectionCount = 1) (hgt : 90 < s.incidentAngle) :
    (interactionC1 s sim).gameState.c1Progress.methodA = true := by
  simp only [interactionC1]
  split_ifs <;> simp_all

lemma interactionC1_latchB (s : AppState) (sim : SimResult)
    (hr : sim.reflectionCount = 1) (hle : s.incidentAngle ≤ 90) :
    (interactionC1 s sim).gameState.c1Progress.methodB = true := by
  simp only [interactionC1]
  split_ifs <;> simp_all

lemma interactionC1_advance (s : AppState) (sim : SimResult)
    (hc : s.gameState.challenge = 1)
    (h2 : (interactionC1 s sim).gameState.challenge = 2) :
    (interactionC1 s sim).gameState.c1Progress.methodA = true ∧
      (interactionC1 s sim).gameState.c1Progress.methodB = true := by
  simp only [interactionC1] at h2 ⊢
  split_ifs at h2 ⊢ <;> simp_all

/-- C3: in challenge 1, the interaction-end evaluation with exactly one
reflection latches `methodA` when the incident angle exceeds `90` and
`methodB` otherwise; the latches are one-way across every session transition
(interaction end, quiz answers, tutorial advance, game start), and the
challenge advances from `1` to `2` through the interaction-end evaluation
only when both latches are set (the quiz handler never changes the challenge
away from `1`). -/
theorem challenge1_latch_protocol :
    (∀ s sim, appSimulation s = some sim → s.gameState.challenge = 1 →
      sim.reflectionCount = 1 →
      (90 < s.incidentAngle →
        (handleInteractionEnd s).gameState.c1Progress.methodA = true) ∧
      (s.incidentAngle ≤ 90 →
        (handleInteractionEnd s).gameState.c1Progress.methodB = true)) ∧
    (∀ s, s.gameState.c1Progress.methodA = true →
      (handleInteractionEnd s).gameState.c1Progress.methodA = true) ∧
    (∀ s, s.gameState.c1Progress.methodB = true →
      (handleInteractionEnd s).gameState.c1Progress.methodB = true) ∧
    (∀ s idx, (handleQuizAnswer idx s).gameState.c1Progress = s.gameState.c1Progress) ∧
    (∀ s, (handleTutorialNext s).gameState.c1Progress = s.gameState.c1Progress) ∧
    (∀ s, (startGame s).gameState.c1Progress = s.gameState.c1Progress) ∧
    (∀ s, s.gameState.challenge = 1 → (handleInteractionEnd s).gameState.challenge = 2 →
      (handleInteractionEnd s).gameState.c1Progress.methodA = true ∧
      (handleInteractionEnd s).gameState.c1Progress.methodB = true) ∧
    (∀ s idx, s.gameState.challenge = 1 →
      (handleQuizAnswer idx s).gameState.challenge = 1) := by
  have hquizP : ∀ s idx, (handleQuizAnswer idx s).gameState.c1Progress
      = s.gameState.c1Progress := by
    intro s idx
    unfold handleQuizAnswer
    split_ifs <;> rfl
  have htutP : ∀ s, (handleTutorialNext s).gameState.c1Progress
      = s.gameState.c1Progress := by
    intro s
    simp only [handleTutorialNext]
    split_ifs <;> rfl
  have hstartP : ∀ s, (startGame s).gameState.c1Progress = s.gameState.c1Progress := by
    intro s
    rfl
  refine ⟨?_, ?_, ?_, hquizP, htutP, hstartP, ?_, ?_⟩
  · intro s sim hsim hc hr
    rw [handleInteractionEnd_eq_c1 s sim hsim hc]
    exact ⟨interactionC1_latchA s sim hr, interactionC1_latchB s sim hr⟩
  · intro s h
    unfold handleInteractionEnd
    cases hsim : appSimulation s with
    | none => exact h
    | some sim =>
      simp only
      split_ifs
      · exact h
      · exact interactionC1_methodA_mono s sim h
      · rw [interactionC2_progress s sim]; exact h
      · rw [interactionC3_progress s sim]; exact h
      · rw [interactionC4_gameState s]; exact h
      · rw [interactionC5_progress s]; exact h
      · exact h
  · intro s h
    unfold handleInteractionEnd
    cases hsim : appSimulation s with
    | none => exact h
    | some sim =>
      simp only
      split_ifs
      · exact h
      · exact interactionC1_methodB_mono s sim h
      · rw [interactionC2_progress s sim]; exact h
      · rw [interactionC3_progress s sim]; exact h
      · rw [interactionC4_gameState s]; exact h
      · rw [interactionC5_progress s]; exact h
      · exact h
  · intro s hc h2
    cases hsim : appSimulation s with
    | none =>
      rw [handleInteractionEnd_of_none s hsim] at h2
      omega
    | some sim =>
      rw [handleInteractionEnd_eq_c1 s sim hsim hc] at h2 ⊢
      exact interactionC1_advance s sim hc h2
  · intro s idx hc
    unfold handleQuizAnswer
    simp [hc]

/-- Witness for C3: at mirror `90`, incident `90`, distance `30`, the traced
ray bounces exactly once and the interaction-end evaluation latches
`methodB`. -/
theorem challenge1_latch_protocol_witness :
    (handleInteractionEnd sampleLatchState).gameState.c1Progress.methodB = true :=
  ((challenge1_latch_protocol).1 sampleLatchState
      (simulate 90 90 30 100) (by simp [appSimulation, sampleLatchState]) rfl
      simulate_90_90_refl).2
    (by norm_num [sampleLatchState])

/-! ### Claim theorems: constraint checker and setters -/

/-- C7: when the placement constraint checker rejects a proposed value, every
committed setter leaves the previously committed state entirely unchanged
(the rejection is silent: the setters are total functions). -/
theorem rejected_placement_retained (s : AppState) (val : ℝ) :
    (checkConstraints s val s.incidentAngle s.sourceDist = false →
      handleSetMirrorAngle val s = s) ∧
    (checkConstraints s s.mirrorAngle val s.sourceDist = false →
      handleSetIncidentAngle val s = s) ∧
    (checkConstraints s s.mirrorAngle s.incidentAngle val = false →
      handleSetSourceDist val s = s) := by
  refine ⟨fun h => ?_, fun h => ?_, fun h => ?_⟩ <;>
    simp [handleSetMirrorAngle, handleSetIncidentAngle, handleSetSourceDist, h]

/-- Concrete rejected proposal used by the C7 witness: with the source
straight above the incidence point and mirror 2 proposed onto the `x`-axis,
the cross-product check fires. -/
lemma checkConstraints_reject_eval :
    checkConstraints ⟨50, 90, 100, 100, initialGameState, "", false⟩ 0 90 100 = false := by
  have h90 : degToRad 90 = Real.pi / 2 := by unfold degToRad; ring
  have h0 : degToRad 0 = 0 := by unfold degToRad; ring
  simp only [checkConstraints, h90, h0, Real.cos_pi_div_two, Real.sin_pi_div_two,
    Real.cos_zero, Real.sin_zero]
  norm_num

/-- Witness for C7: the rejected mirror-angle proposal `0` leaves the state
unchanged. -/
theorem rejected_placement_retained_witness :
    handleSetMirrorAngle 0 ⟨50, 90, 100, 100, initialGameState, "", false⟩ =
      ⟨50, 90, 100, 100, initialGameState, "", false⟩ :=
  (rejected_placement_retained ⟨50, 90, 100, 100, initialGameState, "", false⟩ 0).1
    checkConstraints_reject_eval

/-! ### Claim theorems: resetGame -/

/-- C9 counterexample: `resetGame` does not reset the source distance to any
fixed initial constant - it keeps the current value (`777` here, while the
initial constant is `100 * 0.3 = 30`); the mirror angle is likewise reset to
`130`, not to its initial constant `50`. -/
theorem resetGame_constants_cex :
    (resetGame ⟨0, 0, 777, 100, initialGameState, "", false⟩).sourceDist = 777 ∧
      (777 : ℝ) ≠ 100 * 0.3 ∧
      (resetGame ⟨0, 0, 777, 100, initialGameState, "", false⟩).mirrorAngle = 130 ∧
      (130 : ℝ) ≠ 50 := by
  refine ⟨rfl, by norm_num, rfl, by norm_num⟩

/-- C9 (amended): `resetGame` resets the challenge state to its initial
record (challenge `1`, tutorial step `0`, no jewels, no points, both
challenge-1 latches cleared, no snapshots) and sets the committed mirror and
incident angles to the fixed constants `130` and `60`; the committed source
distance is left unchanged. -/
theorem resetGame_spec (s : AppState) :
    (resetGame s).gameState.challenge = 1 ∧
    (resetGame s).gameState.tutorialStep = 0 ∧
    (resetGame s).gameState.jewels = 0 ∧
    (resetGame s).gameState.points = 0 ∧
    (resetGame s).gameState.c1Progress = ⟨false, false⟩ ∧
    (resetGame s).gameState.c4StartAngle = none ∧
    (resetGame s).gameState.started = false ∧
    (resetGame s).mirrorAngle = 130 ∧
    (resetGame s).incidentAngle = 60 ∧
    (resetGame s).sourceDist = s.sourceDist ∧
    (resetGame s).quizTriggered = false := by
  simp [resetGame, initialGameState]

/-! ### Claim theorems: quiz answers -/

/-- C10: answering a pending quiz with an incorrect option index (anything
but `0` for the challenge-4 quiz, anything but `1` for the challenge-5 quiz)
leaves the whole challenge state unchanged and only clears the pending-quiz
flag. -/
theorem incorrect_quiz_answer_preserves_state (s : AppState) (idx : ℤ) :
    (s.gameState.challenge = 4 → idx ≠ 0 →
      (handleQuizAnswer idx s).gameState = s.gameState ∧
        (handleQuizAnswer idx s).quizTriggered = false) ∧
    (s.gameState.challenge = 5 → idx ≠ 1 →
      (handleQuizAnswer idx s).gameState = s.gameState ∧
        (handleQuizAnswer idx s).quizTriggered = false) := by
  constructor
  · intro hc hidx
    simp [handleQuizAnswer, hc, hidx]
  · intro hc hidx
    rcases eq_or_ne s.gameState.challenge 4 with h4 | h4
    · rw [h4] at hc; norm_num at hc
    · simp [handleQuizAnswer, h4, hc, hidx]

/-- Witness for C10: answering the challenge-4 quiz with index `1`
(incorrect) on a concrete state. -/
theorem incorrect_quiz_answer_preserves_state_witness :
    (handleQuizAnswer 1 ⟨50, 60, 30, 100,
        { initialGameState with challenge := 4 }, "", true⟩).gameState =
      { initialGameState with challenge := 4 } ∧
    (handleQuizAnswer 1 ⟨50, 60, 30, 100,
        { initialGameState with challenge := 4 }, "", true⟩).quizTriggered = false :=
  (incorrect_quiz_answer_preserves_state
    ⟨50, 60, 30, 100, { initialGameState with challenge := 4 }, "", true⟩ 1).1
    rfl (by norm_num)

/-! ### Claim theorems: angle normalization -/

/-- C8 counterexample: the committed setters do not normalize at all - an
accepted proposal of `420` degrees is stored as `420`, which lies outside
`[0, 360)`.  (At mirror angle `90` the constraint checker accepts incident
angle `420` with distance `30`.) -/
theorem angle_setter_normalization_cex :
    (handleSetIncidentAngle 420 ⟨90, 60, 30, 100, initialGameState, "", false⟩).incidentAngle
        = 420 ∧
      ¬((0 : ℝ) ≤ 420 ∧ (420 : ℝ) < 360) := by
  have h90 : degToRad 90 = Real.pi / 2 := by unfold degToRad; ring
  have h420 : degToRad 420 = Real.pi / 3 + 2 * Real.pi := by unfold degToRad; ring
  have hcos420 : Real.cos (degToRad 420) = 1 / 2 := by
    rw [h420, Real.cos_add_two_pi, Real.cos_pi_div_three]
  have hsin420 : Real.sin (degToRad 420) = Real.sqrt 3 / 2 := by
    rw [h420, Real.sin_add_two_pi, Real.sin_pi_div_three]
  have hsqrt3 : (1 : ℝ) ≤ Real.sqrt 3 := by
    nlinarith [Real.sq_sqrt (by norm_num : (0:ℝ) ≤ 3), Real.sqrt_nonneg (3:ℝ)]
  have hcheck : checkConstraints ⟨90, 60, 30, 100, initialGameState, "", false⟩ 90 420 30
      = true := by
    simp only [checkConstraints, h90, hcos420, hsin420, Real.cos_pi_div_two,
      Real.sin_pi_div_two]
    norm_num
    nlinarith [hsqrt3]
  constructor
  · simp only [handleSetIncidentAngle]
    rw [if_pos hcheck]
  · norm_num

/-- C8 (amended): only the control-panel stepper normalizes, and it does so
by a single `±360` correction: whenever the rounded proposal lies in
`[-360, 720)` - which covers every in-range current value with the panel's
`±1`/`±5` button deltas - the committed result lies in `[0, 360)`.  The
committed setters themselves store accepted proposals unchanged. -/
theorem adjustAngle_wraps_into_range (currentVal delta : ℝ)
    (h1 : -360 ≤ jround (currentVal + delta)) (h2 : jround (currentVal + delta) < 720) :
    0 ≤ adjustAngle currentVal delta ∧ adjustAngle currentVal delta < 360 := by
  simp only [adjustAngle]
  split_ifs with ha hb hb <;> omega

/-- Witness for C8 (amended) at current value `359`, delta `+5`. -/
theorem adjustAngle_wraps_into_range_witness :
    0 ≤ adjustAngle 359 5 ∧ adjustAngle 359 5 < 360 := by
  have hr : jround ((359 : ℝ) + 5) = 364 := by
    unfold jround
    rw [Int.floor_eq_iff]
    push_cast
    norm_num
  exact adjustAngle_wraps_into_range 359 5 (by rw [hr]; norm_num) (by rw [hr]; norm_num)

/-! ### Two-bounce deviation law (C2): helper lemmas -/

end TwoMirrors
